import Mathlib

/-!
Shallow embedding of the `tailor` command-line utility (src/main.rs).

The program has three functions:
  * `can_tail_file` — decides whether a file can be tailed, from three
    filesystem observations: whether an entry is present at the path,
    the metadata query (which may fail, or report a directory), and the
    attempt to open the file for reading.
  * `run_command` — spawns an external command; a spawn failure becomes a
    returned error, a non-zero child exit becomes an immediate process
    exit with the child's code (`-1` when the child left no code).
  * `main` — ties the two together, running `tail <path>` when the path
    is tailable and the user-supplied fallback command otherwise.

Filesystem and process effects are modelled by explicit data: the
filesystem is a map from paths to observation records, spawning is a map
from invocations to spawn results, and logging is a list of messages.
-/

namespace Tailor

/-- Log severities used by the program (log::info!, warn!, error!). -/
inductive LogLevel where
  | info
  | warn
  | error
deriving Repr, DecidableEq

/-- A single log message emitted by the program. -/
structure LogMsg where
  level : LogLevel
  msg : String
deriving Repr, DecidableEq

/-- The filesystem observations `can_tail_file` makes about one path:
`entryPresent` is `Path::new(p).exists()`; `metadataResult` is
`std::fs::metadata(p)` reduced to its only consumed field `is_dir`
(`Except.ok d` with `d = is_dir`, or the error cause); `openResult` is
`File::open(p)` (the opened handle is dropped at once, so only success
or the error text matters). -/
structure FsEntry where
  entryPresent : Bool
  metadataResult : Except String Bool
  openResult : Except String Unit
deriving Repr

/-- A filesystem: what the three probes observe at each path. -/
def Fs : Type := String → FsEntry

/-- `can_tail_file` from src/main.rs: returns `Ok false` for a missing
entry, propagates a metadata failure with context, returns `Ok false`
with a warning for a directory or an unopenable file, and `Ok true`
when the open succeeds.  The second component is the list of log
messages emitted. -/
def can_tail_file (fs : Fs) (file_path : String) :
    Except String Bool × List LogMsg :=
  let e := fs file_path
  if !e.entryPresent then
    (Except.ok false, [])
  else
    match e.metadataResult with
    | Except.error cause =>
        (Except.error ("failed to read metadata for " ++ file_path ++ ": " ++ cause), [])
    | Except.ok isDir =>
        if isDir then
          (Except.ok false, [⟨LogLevel.warn, file_path ++ " is a directory"⟩])
        else
          match e.openResult with
          | Except.ok _ => (Except.ok true, [])
          | Except.error err =>
              (Except.ok false,
               [⟨LogLevel.warn, "cannot read file " ++ file_path ++ ": " ++ err⟩])

/-- Outcome of `run_command`: a normal `Ok(())` return, a returned
`anyhow` error (the `?`/`with_context` channel), or an immediate
termination of the current process via `std::process::exit`. -/
inductive RunOutcome where
  | ok
  | fatalError (msg : String)
  | exitProcess (code : Int)
deriving Repr, DecidableEq

/-- `ExitStatus::success()`: the child exited with code 0.  A child
killed by a signal has no exit code (`none`) and is not a success. -/
def statusSuccess (status : Option Int) : Bool :=
  decide (status = some 0)

/-- `run_command` from src/main.rs.  `spawnResult` is what
`Command::status()` observed for this invocation: `Except.error cause`
when the spawn itself failed, `Except.ok status` when the child ran and
terminated with `status` (`some code`, or `none` for no code).  The
second component is the list of log messages emitted. -/
def run_command (spawnResult : Except String (Option Int))
    (command : String) (args : List String) : RunOutcome × List LogMsg :=
  match spawnResult with
  | Except.error cause =>
      (RunOutcome.fatalError
        ("failed to execute command '" ++ command ++ "': " ++ cause), [])
  | Except.ok status =>
      if statusSuccess status then
        (RunOutcome.ok, [])
      else
        let exit_code := status.getD (-1)
        (RunOutcome.exitProcess exit_code,
         [⟨LogLevel.error,
           "command '" ++ command ++ "' failed with exit code: "
             ++ toString exit_code⟩])

/-- One child-process invocation: the executable name and its ordered
argument vector, exactly as handed to `Command::new(..).args(..)`. -/
structure Invocation where
  command : String
  args : List String
deriving Repr, DecidableEq

/-- How the environment answers each attempted invocation. -/
def SpawnEnv : Type := Invocation → Except String (Option Int)

/-- Outcome of `main`: normal return `Ok(())` (process exits 0), a
returned `anyhow` error (process exits with a generic failure code), or
an immediate `std::process::exit(code)` from inside `run_command`. -/
inductive MainOutcome where
  | okExit
  | errExit (msg : String)
  | exitProcess (code : Int)
deriving Repr, DecidableEq

/-- The process exit code each `MainOutcome` produces: 0 for `Ok(())`,
the generic failure code 1 when `main` returns an error, and the given
code for `std::process::exit(code)`. -/
def exitCode : MainOutcome → Int
  | MainOutcome.okExit => 0
  | MainOutcome.errExit _ => 1
  | MainOutcome.exitProcess c => c

/-- Lift a `run_command` outcome through the `?` operator in `main`. -/
def liftRun : RunOutcome → MainOutcome
  | RunOutcome.ok => MainOutcome.okExit
  | RunOutcome.fatalError msg => MainOutcome.errExit msg
  | RunOutcome.exitProcess c => MainOutcome.exitProcess c

/-- `main` from src/main.rs, after argument parsing: `file` is the
positional file argument, `command` the trailing fallback command list.
Returns the outcome, the list of invocations handed to `run_command`,
and the log messages emitted. -/
def main (fs : Fs) (spawn : SpawnEnv) (file : String)
    (command : List String) :
    MainOutcome × List Invocation × List LogMsg :=
  match can_tail_file fs file with
  | (Except.error msg, logs) => (MainOutcome.errExit msg, [], logs)
  | (Except.ok true, logs) =>
      let inv : Invocation := ⟨"tail", [file]⟩
      let r := run_command (spawn inv) "tail" [file]
      (liftRun r.fst, [inv], logs ++ r.snd)
  | (Except.ok false, logs) =>
      match command with
      | [] =>
          (MainOutcome.errExit
            ("File '" ++ file
              ++ "' is not readable and no fallback command specified."),
           [], logs)
      | c :: rest =>
          let command_args := rest ++ [file]
          let inv : Invocation := ⟨c, command_args⟩
          let r := run_command (spawn inv) c command_args
          (liftRun r.fst, [inv],
           logs
             ++ [⟨LogLevel.info,
                  "file " ++ file ++ " cannot be tailed, executing: "
                    ++ c ++ " " ++ String.intercalate " " command_args⟩]
             ++ r.snd)

/-- Spec-side observation: the open-for-reading probe succeeded. -/
def openOk (e : FsEntry) : Bool :=
  match e.openResult with
  | Except.ok _ => true
  | Except.error _ => false

/-- C1: under ordinary filesystem conditions (the metadata query
succeeds whenever an entry is present, reporting `d = is_dir`),
`can_tail_file` returns `Ok true` exactly when an entry is present, it
is not a directory, and opening it for reading succeeds; in every other
such condition it returns `Ok false`, never an error. -/
theorem claim_C1 (fs : Fs) (p : String) (d : Bool)
    (hmeta : (fs p).entryPresent = true → (fs p).metadataResult = Except.ok d) :
    (can_tail_file fs p).fst
      = Except.ok ((fs p).entryPresent && !d && openOk (fs p)) := by
  cases hp : (fs p).entryPresent with
  | false => simp [can_tail_file, hp]
  | true =>
    have hm := hmeta hp
    cases d with
    | true => simp [can_tail_file, hp, hm]
    | false =>
      cases ho : (fs p).openResult with
      | ok u => simp [can_tail_file, hp, hm, ho, openOk]
      | error err => simp [can_tail_file, hp, hm, ho, openOk]

/-- Witness for C1 at a present, non-directory, readable entry. -/
theorem claim_C1_witness :
    (can_tail_file (fun _ => ⟨true, Except.ok false, Except.ok ()⟩) "f").fst
      = Except.ok
          (((fun _ => (⟨true, Except.ok false, Except.ok ()⟩ : FsEntry)) "f").entryPresent
            && !false
            && openOk ((fun _ => (⟨true, Except.ok false, Except.ok ()⟩ : FsEntry)) "f")) :=
  claim_C1 (fun _ => ⟨true, Except.ok false, Except.ok ()⟩) "f" false (fun _ => rfl)

/-- C3: when the child spawned and terminated with a non-zero exit code
`c`, `run_command` logs the failing command and that code at error
level and terminates the current process with code `c` (an
`exitProcess` outcome, not a returned `fatalError`). -/
theorem claim_C3 (c : Int) (hc : c ≠ 0) (cmd : String) (args : List String) :
    run_command (Except.ok (some c)) cmd args
      = (RunOutcome.exitProcess c,
         [⟨LogLevel.error,
           "command '" ++ cmd ++ "' failed with exit code: " ++ toString c⟩]) := by
  simp [run_command, statusSuccess, hc]

/-- Witness for C3 at exit code 7. -/
theorem claim_C3_witness :
    run_command (Except.ok (some 7)) "tail" ["f"]
      = (RunOutcome.exitProcess 7,
         [⟨LogLevel.error,
           "command '" ++ "tail" ++ "' failed with exit code: " ++ toString (7 : Int)⟩]) :=
  claim_C3 7 (by decide) "tail" ["f"]

/-- C7: when the spawn itself fails, `run_command` returns a fatal
error naming the command and the underlying cause — a `fatalError`
outcome, never the `exitProcess` numeric passthrough used for a child
that ran and exited non-zero. -/
theorem claim_C7 (cause cmd : String) (args : List String) :
    run_command (Except.error cause) cmd args
      = (RunOutcome.fatalError
          ("failed to execute command '" ++ cmd ++ "': " ++ cause), [])
      ∧ ∀ code : Int,
          (run_command (Except.error cause) cmd args).fst
            ≠ RunOutcome.exitProcess code := by
  refine ⟨rfl, ?_⟩
  intro code h
  simp [run_command] at h

/-- C10: when the child terminated unsuccessfully but left no exit code
(for example, killed by a signal), `run_command` substitutes -1: it
logs exit code -1 and terminates the current process with code -1. -/
theorem claim_C10 (cmd : String) (args : List String) :
    run_command (Except.ok none) cmd args
      = (RunOutcome.exitProcess (-1),
         [⟨LogLevel.error,
           "command '" ++ cmd ++ "' failed with exit code: "
             ++ toString (-1 : Int)⟩]) := by
  simp [run_command, statusSuccess]

/-- C4: when an entry is present at the path but the metadata query
fails (for a reason other than non-existence), `can_tail_file`
propagates the failure as an error with context naming the path,
rather than returning `false`. -/
theorem claim_C4 (fs : Fs) (p cause : String)
    (hp : (fs p).entryPresent = true)
    (hm : (fs p).metadataResult = Except.error cause) :
    (can_tail_file fs p).fst
      = Except.error ("failed to read metadata for " ++ p ++ ": " ++ cause) := by
  simp [can_tail_file, hp, hm]

/-- Witness for C4 at an entry whose stat is denied. -/
theorem claim_C4_witness :
    (can_tail_file (fun _ => ⟨true, Except.error "denied", Except.ok ()⟩) "f").fst
      = Except.error ("failed to read metadata for " ++ "f" ++ ": " ++ "denied") :=
  claim_C4 (fun _ => ⟨true, Except.error "denied", Except.ok ()⟩) "f" "denied" rfl rfl

/-- C8: when no entry is present at the path, `can_tail_file` returns
`Ok false` and emits no log message at all. -/
theorem claim_C8 (fs : Fs) (p : String)
    (hp : (fs p).entryPresent = false) :
    can_tail_file fs p = (Except.ok false, []) := by
  simp [can_tail_file, hp]

/-- Witness for C8 at a missing entry. -/
theorem claim_C8_witness :
    can_tail_file (fun _ => ⟨false, Except.error "no entry", Except.error "no entry"⟩) "f"
      = (Except.ok false, []) :=
  claim_C8 (fun _ => ⟨false, Except.error "no entry", Except.error "no entry"⟩) "f" rfl

/-- C9: when an entry is present and is a directory, `can_tail_file`
returns `Ok false` with a warning that the path is a directory; when it
is present, not a directory, and opening it fails, `can_tail_file`
returns `Ok false` with a warning carrying the underlying I/O error —
in neither case is an error propagated. -/
theorem claim_C9 (fs : Fs) (p : String) :
    ((fs p).entryPresent = true →
      (fs p).metadataResult = Except.ok true →
      can_tail_file fs p
        = (Except.ok false, [⟨LogLevel.warn, p ++ " is a directory"⟩]))
    ∧ (∀ err : String,
        (fs p).entryPresent = true →
        (fs p).metadataResult = Except.ok false →
        (fs p).openResult = Except.error err →
        can_tail_file fs p
          = (Except.ok false,
             [⟨LogLevel.warn, "cannot read file " ++ p ++ ": " ++ err⟩])) := by
  constructor
  · intro hp hm
    simp [can_tail_file, hp, hm]
  · intro err hp hm ho
    simp [can_tail_file, hp, hm, ho]

/-- Witness for C9: a directory entry and an unreadable file entry. -/
theorem claim_C9_witness :
    can_tail_file (fun _ => ⟨true, Except.ok true, Except.ok ()⟩) "d"
      = (Except.ok false, [⟨LogLevel.warn, "d" ++ " is a directory"⟩])
    ∧ can_tail_file (fun _ => ⟨true, Except.ok false, Except.error "perm"⟩) "f"
      = (Except.ok false,
         [⟨LogLevel.warn, "cannot read file " ++ "f" ++ ": " ++ "perm"⟩]) :=
  ⟨(claim_C9 (fun _ => ⟨true, Except.ok true, Except.ok ()⟩) "d").1 rfl rfl,
   (claim_C9 (fun _ => ⟨true, Except.ok false, Except.error "perm"⟩) "f").2
     "perm" rfl rfl rfl⟩

/-- C2: for a target that is not tailable and a non-empty fallback list
`c :: rest`, `main` performs exactly one invocation, whose executable
is `c` and whose argument vector is `rest` followed by the target path
appended last. -/
theorem claim_C2 (fs : Fs) (spawn : SpawnEnv) (file c : String)
    (rest : List String)
    (hnot : (can_tail_file fs file).fst = Except.ok false) :
    (main fs spawn file (c :: rest)).snd.fst = [⟨c, rest ++ [file]⟩] := by
  cases hpair : can_tail_file fs file with
  | mk r logs =>
    rw [hpair] at hnot
    simp only at hnot
    subst hnot
    simp [main, hpair]

/-- Witness for C2 at a missing file with fallback `chmod 755`. -/
theorem claim_C2_witness :
    (main (fun _ => ⟨false, Except.error "no entry", Except.error "no entry"⟩)
        (fun _ => Except.ok (some 0)) "f" ("chmod" :: ["755"])).snd.fst
      = [⟨"chmod", ["755"] ++ ["f"]⟩] :=
  claim_C2 (fun _ => ⟨false, Except.error "no entry", Except.error "no entry"⟩)
    (fun _ => Except.ok (some 0)) "f" "chmod" ["755"] rfl

/-- C5: for a target that is not tailable and an empty fallback list,
`main` returns the descriptive configuration error naming the file and
the missing fallback, spawns no child process, and the process exit
code is non-zero. -/
theorem claim_C5 (fs : Fs) (spawn : SpawnEnv) (file : String)
    (hnot : (can_tail_file fs file).fst = Except.ok false) :
    (main fs spawn file []).fst
      = MainOutcome.errExit
          ("File '" ++ file
            ++ "' is not readable and no fallback command specified.")
    ∧ (main fs spawn file []).snd.fst = []
    ∧ exitCode (main fs spawn file []).fst ≠ 0 := by
  cases hpair : can_tail_file fs file with
  | mk r logs =>
    rw [hpair] at hnot
    simp only at hnot
    subst hnot
    refine ⟨?_, ?_, ?_⟩ <;> simp [main, hpair, exitCode]

/-- Witness for C5 at a missing file with no fallback. -/
theorem claim_C5_witness :
    (main (fun _ => ⟨false, Except.error "no entry", Except.error "no entry"⟩)
        (fun _ => Except.ok (some 0)) "f" []).fst
      = MainOutcome.errExit
          ("File '" ++ "f"
            ++ "' is not readable and no fallback command specified.")
    ∧ (main (fun _ => ⟨false, Except.error "no entry", Except.error "no entry"⟩)
        (fun _ => Except.ok (some 0)) "f" []).snd.fst = []
    ∧ exitCode (main (fun _ => ⟨false, Except.error "no entry", Except.error "no entry"⟩)
        (fun _ => Except.ok (some 0)) "f" []).fst ≠ 0 :=
  claim_C5 (fun _ => ⟨false, Except.error "no entry", Except.error "no entry"⟩)
    (fun _ => Except.ok (some 0)) "f" rfl

/-- C6: for a tailable target, `main` performs exactly one invocation,
of the fixed command `tail` with the target path as its single
argument, and its whole behaviour is independent of the fallback
command list (the list is never consulted). -/
theorem claim_C6 (fs : Fs) (spawn : SpawnEnv) (file : String)
    (command : List String)
    (ht : (can_tail_file fs file).fst = Except.ok true) :
    (main fs spawn file command).snd.fst = [⟨"tail", [file]⟩]
    ∧ main fs spawn file command = main fs spawn file [] := by
  cases hpair : can_tail_file fs file with
  | mk r logs =>
    rw [hpair] at ht
    simp only at ht
    subst ht
    exact ⟨by simp [main, hpair], by simp [main, hpair]⟩

/-- Witness for C6 at a readable file with a fallback list present. -/
theorem claim_C6_witness :
    (main (fun _ => ⟨true, Except.ok false, Except.ok ()⟩)
        (fun _ => Except.ok (some 0)) "f" ["touch"]).snd.fst
      = [⟨"tail", ["f"]⟩]
    ∧ main (fun _ => ⟨true, Except.ok false, Except.ok ()⟩)
        (fun _ => Except.ok (some 0)) "f" ["touch"]
      = main (fun _ => ⟨true, Except.ok false, Except.ok ()⟩)
          (fun _ => Except.ok (some 0)) "f" [] :=
  claim_C6 (fun _ => ⟨true, Except.ok false, Except.ok ()⟩)
    (fun _ => Except.ok (some 0)) "f" ["touch"] rfl

end Tailor
